import Mathlib

/-!
Verification of the translate-and-evaluate Streamlit app (`src/app.py`).

The file shallowly embeds the module-level code of `app.py`:
the memoized component loader (`load_components` under `@st.cache_resource`)
and the Translate-button handler (strip the source, call the translator,
optionally call the three metrics and render formatted scores).
External services (the translation pipeline and the three metric objects)
are opaque callables supplied as parameters; the handler is modelled as a
pure function returning the list of service calls it makes and the list of
UI elements it renders, plus a flag recording whether an unhandled
exception propagated.
-/

namespace Evaluator

/-- Python `str.strip()` whitespace predicate, restricted to the ASCII
whitespace characters (space, tab, newline, carriage return, vertical tab,
form feed). -/
def pyIsSpace (c : Char) : Bool :=
  c = ' ' || c = '\t' || c = '\n' || c = '\r' || c = '\x0b' || c = '\x0c'

/-- `str.strip()` on a character list: drop whitespace from both ends. -/
def stripChars (l : List Char) : List Char :=
  ((l.dropWhile pyIsSpace).reverse.dropWhile pyIsSpace).reverse

/-- Python `str.strip()` (no arguments) on a string. -/
def pythonStrip (s : String) : String :=
  String.mk (stripChars s.data)

/-- Decimal digit rendering of a natural number, most significant digit
first, with explicit fuel (the fuel `n + 1` always suffices). -/
def natToDigitsAux : Nat → Nat → List Char
  | 0, _ => []
  | fuel + 1, n =>
    if n < 10 then [Nat.digitChar n]
    else natToDigitsAux fuel (n / 10) ++ [Nat.digitChar (n % 10)]

/-- Decimal digit rendering of a natural number. -/
def natToDigits (n : Nat) : List Char :=
  natToDigitsAux (n + 1) n

/-- Model of Python `f"{x:.2f}"` two-decimal formatting on an exact
rational score: round `100 * x` to an integer and print it with a decimal
point before the last two digits. -/
def format2 (x : ℚ) : String :=
  String.mk ((if ⌊x * 100 + 1 / 2⌋ < 0 then ['-'] else [])
    ++ natToDigits ((⌊x * 100 + 1 / 2⌋ : Int).natAbs / 100)
    ++ ['.', Nat.digitChar ((⌊x * 100 + 1 / 2⌋ : Int).natAbs % 100 / 10),
        Nat.digitChar ((⌊x * 100 + 1 / 2⌋ : Int).natAbs % 100 % 10)])

/-- A string is two-decimal formatted when it ends in a dot followed by
exactly two decimal digits, with a nonempty integer part before the dot. -/
def twoDecimalFormatted (s : String) : Bool :=
  match s.data.reverse with
  | d0 :: d1 :: '.' :: rest => d0.isDigit && d1.isDigit && !rest.isEmpty
  | _ => false

/-- One element of the list returned by the `transformers` translation
pipeline: a dict with a `translation_text` key. -/
structure TranslationItem where
  translation_text : String
deriving DecidableEq

/-- Result dict of `sacrebleu`'s `compute`: a `score` field. -/
structure BleuResult where
  score : ℚ
deriving DecidableEq

/-- Result dict of `bertscore`'s `compute`: a per-example `f1` array. -/
structure BertResult where
  f1 : List ℚ
deriving DecidableEq

/-- Result dict of `comet`'s `compute`: a per-example `scores` array. -/
structure CometResult where
  scores : List ℚ
deriving DecidableEq

/-- The four opaque external services the handler calls.  Metric `compute`
calls may raise (modelled as `Except Unit`); argument order mirrors the
keyword arguments in `app.py` (`predictions`, `references`, and `lang` for
BERTScore / `sources` for COMET). -/
structure Services where
  translator : String → List TranslationItem
  bleuCompute : List String → List (List String) → Except Unit BleuResult
  bertCompute : List String → List String → String → Except Unit BertResult
  cometCompute : List String → List String → List String → Except Unit CometResult

/-- A recorded call to one of the external services, with the exact
arguments passed. -/
inductive Call where
  | translate (arg : String)
  | bleu (predictions : List String) (references : List (List String))
  | bert (predictions : List String) (references : List String) (lang : String)
  | comet (predictions : List String) (references : List String) (sources : List String)
deriving DecidableEq

/-- A UI element rendered by the handler: `st.warning`, the translation
`st.text_area`, a `col.metric` score, or `st.info`. -/
inductive Render where
  | warning (msg : String)
  | translationArea (value : String)
  | metric (label : String) (value : String)
  | info (msg : String)
deriving DecidableEq

/-- Observable outcome of one press of the Translate button: the service
calls made (in order), the UI elements rendered (in order), and whether an
unhandled exception propagated out of the handler. -/
structure Outcome where
  calls : List Call
  renders : List Render
  failed : Bool
deriving DecidableEq

/-- The body of the `if st.button("Translate")` block of `app.py`:
strip the source; on empty input render only a warning; otherwise call the
translator on the stripped source and take `[0]["translation_text"]`;
if the stripped reference is nonempty call sacrebleu, bertscore and comet
in that order and render the three formatted scores, else render an info
message.  Any exception (empty pipeline result, a failing metric `compute`,
an empty `f1`/`scores` array) aborts the handler at that point with the
side effects performed so far. -/
def runHandler (svc : Services) (source_text reference_text : String) : Outcome :=
  if pythonStrip source_text = "" then
    { calls := [], renders := [Render.warning "Please enter some text to translate."],
      failed := false }
  else
    match svc.translator (pythonStrip source_text) with
    | [] => { calls := [Call.translate (pythonStrip source_text)], renders := [], failed := true }
    | item :: _ =>
      let translation := item.translation_text
      if pythonStrip reference_text = "" then
        { calls := [Call.translate (pythonStrip source_text)],
          renders := [Render.translationArea translation,
            Render.info "Add a reference translation to compute quality metrics."],
          failed := false }
      else
        match svc.bleuCompute [translation] [[pythonStrip reference_text]] with
        | .error _ =>
          { calls := [Call.translate (pythonStrip source_text),
              Call.bleu [translation] [[pythonStrip reference_text]]],
            renders := [Render.translationArea translation], failed := true }
        | .ok bleuRes =>
          match svc.bertCompute [translation] [pythonStrip reference_text] "tr" with
          | .error _ =>
            { calls := [Call.translate (pythonStrip source_text),
                Call.bleu [translation] [[pythonStrip reference_text]],
                Call.bert [translation] [pythonStrip reference_text] "tr"],
              renders := [Render.translationArea translation], failed := true }
          | .ok bertRes =>
            match svc.cometCompute [translation] [pythonStrip reference_text]
                [pythonStrip source_text] with
            | .error _ =>
              { calls := [Call.translate (pythonStrip source_text),
                  Call.bleu [translation] [[pythonStrip reference_text]],
                  Call.bert [translation] [pythonStrip reference_text] "tr",
                  Call.comet [translation] [pythonStrip reference_text]
                    [pythonStrip source_text]],
                renders := [Render.translationArea translation], failed := true }
            | .ok cometRes =>
              match bertRes.f1, cometRes.scores with
              | f1h :: _, sch :: _ =>
                { calls := [Call.translate (pythonStrip source_text),
                    Call.bleu [translation] [[pythonStrip reference_text]],
                    Call.bert [translation] [pythonStrip reference_text] "tr",
                    Call.comet [translation] [pythonStrip reference_text]
                      [pythonStrip source_text]],
                  renders := [Render.translationArea translation,
                    Render.metric "BLEU" (format2 bleuRes.score),
                    Render.metric "BERTScore F1" (format2 (f1h * 100)),
                    Render.metric "COMET" (format2 sch)],
                  failed := false }
              | _, _ =>
                { calls := [Call.translate (pythonStrip source_text),
                    Call.bleu [translation] [[pythonStrip reference_text]],
                    Call.bert [translation] [pythonStrip reference_text] "tr",
                    Call.comet [translation] [pythonStrip reference_text]
                      [pythonStrip source_text]],
                  renders := [Render.translationArea translation], failed := true }

/-- The translation pipeline configuration built by `load_components`:
`pipeline("translation", model=..., tokenizer=..., max_length=512)`. -/
structure Pipeline where
  task : String
  model : String
  tokenizer : String
  max_length : Nat
deriving DecidableEq

/-- A metric object returned by `evaluate.load(name)`. -/
structure MetricHandle where
  name : String
deriving DecidableEq

/-- The four objects returned by `load_components`. -/
structure ComponentsT where
  translator : Pipeline
  bleu : MetricHandle
  bertscore : MetricHandle
  comet : MetricHandle
deriving DecidableEq

/-- The body of `load_components` in `app.py`, with the external
constructors assumed to succeed: builds the MarianMT translation pipeline
and loads sacrebleu, bertscore and comet. -/
def load_components : Unit → ComponentsT := fun _ =>
  let translator : Pipeline :=
    { task := "translation"
      model := "Helsinki-NLP/opus-mt-mul-tr"
      tokenizer := "Helsinki-NLP/opus-mt-mul-tr"
      max_length := 512 }
  { translator := translator
    bleu := { name := "sacrebleu" }
    bertscore := { name := "bertscore" }
    comet := { name := "comet" } }

/-- Model of the `@st.cache_resource` decorator on a zero-argument
function: the cache holds at most one constructed value; a hit returns the
cached object without running the body, a miss runs the body once and
stores the result. -/
def cacheResource {α : Type} (f : Unit → α) : Option α → α × Option α
  | some c => (c, some c)
  | none => (f (), some (f ()))

/-- A sequence of `n` calls to the cached function, threading the cache
state and collecting the returned objects in order. -/
def cacheCalls {α : Type} (f : Unit → α) : Nat → Option α → List α × Option α
  | 0, s => ([], s)
  | n + 1, s =>
    let r := cacheResource f s
    let rest := cacheCalls f n r.2
    (r.1 :: rest.1, rest.2)

/-- The body of `load_components` with fallible external constructors, as
written in `app.py`: the pipeline construction and the three
`evaluate.load` calls run in order with no exception handling, so the
first failure propagates out of the whole function. -/
def load_components_fallible (loadPipeline : Except Unit Pipeline)
    (loadMetric : String → Except Unit MetricHandle) : Except Unit ComponentsT :=
  match loadPipeline with
  | .error e => .error e
  | .ok tr =>
    match loadMetric "sacrebleu" with
    | .error e => .error e
    | .ok b =>
      match loadMetric "bertscore" with
      | .error e => .error e
      | .ok bs =>
        match loadMetric "comet" with
        | .error e => .error e
        | .ok cm => .ok { translator := tr, bleu := b, bertscore := bs, comet := cm }

/-- Components of the spec's other front-end variant, where the COMET
handle may be the "unavailable" sentinel (`none`). -/
structure ComponentsV2 where
  translator : Pipeline
  bleu : MetricHandle
  bertscore : MetricHandle
  comet : Option MetricHandle
deriving DecidableEq

/-- Modelled from the spec: the other variant's loader, which is not under
`src/`; per the spec it "tolerates failure to load the third metric
(COMET) by substituting a sentinel unavailable value rather than failing
the whole load". -/
def load_components_tolerant (loadPipeline : Except Unit Pipeline)
    (loadMetric : String → Except Unit MetricHandle) : Except Unit ComponentsV2 :=
  match loadPipeline with
  | .error e => .error e
  | .ok tr =>
    match loadMetric "sacrebleu" with
    | .error e => .error e
    | .ok b =>
      match loadMetric "bertscore" with
      | .error e => .error e
      | .ok bs =>
        match loadMetric "comet" with
        | .error _ => .ok { translator := tr, bleu := b, bertscore := bs, comet := none }
        | .ok cm => .ok { translator := tr, bleu := b, bertscore := bs, comet := some cm }

/-- A concrete service bundle on which every call succeeds, used by the
witnesses: the translator prefixes its input, the metrics return fixed
scores. -/
def svc0 : Services :=
  { translator := fun s => [{ translation_text := "tr:" ++ s }],
    bleuCompute := fun _ _ => .ok { score := 42 },
    bertCompute := fun _ _ _ => .ok { f1 := [9 / 10] },
    cometCompute := fun _ _ _ => .ok { scores := [4 / 5] } }

/-- A concrete service bundle whose BERTScore `compute` raises, used by
the failure-propagation witnesses. -/
def svcBertFail : Services :=
  { translator := fun s => [{ translation_text := "tr:" ++ s }],
    bleuCompute := fun _ _ => .ok { score := 42 },
    bertCompute := fun _ _ _ => .error (),
    cometCompute := fun _ _ _ => .ok { scores := [4 / 5] } }

lemma dropWhile_append_all {p : Char → Bool} :
    ∀ {w : List Char}, (∀ c ∈ w, p c = true) →
      ∀ l : List Char, (w ++ l).dropWhile p = l.dropWhile p
  | [], _, _ => rfl
  | a :: t, hw, l => by
    have ha : p a = true := hw a (List.mem_cons_self a t)
    rw [List.cons_append, List.dropWhile_cons, if_pos ha]
    exact dropWhile_append_all (fun c hc => hw c (List.mem_cons_of_mem a hc)) l

lemma stripChars_eq_nil {l : List Char} (h : ∀ c ∈ l, pyIsSpace c = true) :
    stripChars l = [] := by
  have h1 : l.dropWhile pyIsSpace = [] := List.dropWhile_eq_nil_iff.mpr h
  simp [stripChars, h1]

lemma stripChars_space_append {w : List Char} (hw : ∀ c ∈ w, pyIsSpace c = true)
    (l : List Char) : stripChars (w ++ l) = stripChars l := by
  unfold stripChars
  rw [dropWhile_append_all hw]

lemma stripChars_append_space {w : List Char} (hw : ∀ c ∈ w, pyIsSpace c = true)
    (l : List Char) : stripChars (l ++ w) = stripChars l := by
  induction l with
  | nil =>
    rw [List.nil_append, stripChars_eq_nil hw]
    rfl
  | cons a t ih =>
    by_cases ha : pyIsSpace a = true
    · have h1 : stripChars ((a :: t) ++ w) = stripChars (t ++ w) := by
        simp [stripChars, List.dropWhile_cons, ha]
      have h2 : stripChars (a :: t) = stripChars t := by
        simp [stripChars, List.dropWhile_cons, ha]
      rw [h1, h2, ih]
    · have hrev : ∀ c ∈ w.reverse, pyIsSpace c = true := fun c hc =>
        hw c (List.mem_reverse.mp hc)
      have key : ∀ m : List Char, stripChars (a :: m)
          = (List.dropWhile pyIsSpace (m.reverse ++ [a])).reverse := by
        intro m
        simp [stripChars, List.dropWhile_cons, ha]
      rw [List.cons_append, key (t ++ w), key t, List.reverse_append,
        List.append_assoc, dropWhile_append_all hrev]

lemma pythonStrip_pad (w1 s w2 : String)
    (h1 : ∀ c ∈ w1.data, pyIsSpace c = true) (h2 : ∀ c ∈ w2.data, pyIsSpace c = true) :
    pythonStrip (w1 ++ s ++ w2) = pythonStrip s := by
  unfold pythonStrip
  have hd : (w1 ++ s ++ w2).data = (w1.data ++ s.data) ++ w2.data := by
    simp [String.data_append]
  rw [hd, stripChars_append_space h2, stripChars_space_append h1]

lemma pythonStrip_of_all_space {s : String} (h : ∀ c ∈ s.data, pyIsSpace c = true) :
    pythonStrip s = "" := by
  show String.mk (stripChars s.data) = ""
  rw [stripChars_eq_nil h]

/-- The handler reads its two inputs only through `pythonStrip`. -/
lemma runHandler_congr (svc : Services) {s1 s2 r1 r2 : String}
    (hs : pythonStrip s1 = pythonStrip s2) (hr : pythonStrip r1 = pythonStrip r2) :
    runHandler svc s1 r1 = runHandler svc s2 r2 := by
  unfold runHandler
  rw [hs, hr]

lemma digitChar_isDigit {n : Nat} (h : n < 10) : (Nat.digitChar n).isDigit = true := by
  interval_cases n <;> decide

lemma natToDigitsAux_ne_nil (fuel n : Nat) : natToDigitsAux (fuel + 1) n ≠ [] := by
  rw [natToDigitsAux]
  split <;> simp

lemma natToDigits_ne_nil (n : Nat) : natToDigits n ≠ [] :=
  natToDigitsAux_ne_nil n n

lemma twoDecimalFormatted_mk (pre : List Char) (d1 d0 : Char)
    (hpre : pre ≠ []) (h1 : d1.isDigit = true) (h0 : d0.isDigit = true) :
    twoDecimalFormatted (String.mk (pre ++ ['.', d1, d0])) = true := by
  have hrev : (String.mk (pre ++ ['.', d1, d0])).data.reverse
      = d0 :: d1 :: '.' :: pre.reverse := by
    simp [List.reverse_append]
  unfold twoDecimalFormatted
  rw [hrev]
  have hne : pre.reverse ≠ [] := fun hh => hpre (List.reverse_eq_nil_iff.mp hh)
  simp [h1, h0, List.isEmpty_iff, hne]

/-- Every string produced by the `:.2f` model ends in a dot and two
decimal digits, with a nonempty integer part. -/
lemma format2_twoDecimal (x : ℚ) : twoDecimalFormatted (format2 x) = true := by
  have hlt : (⌊x * 100 + 1 / 2⌋.natAbs % 100) < 100 := Nat.mod_lt _ (by decide)
  have h1 : (Nat.digitChar (⌊x * 100 + 1 / 2⌋.natAbs % 100 / 10)).isDigit = true := by
    apply digitChar_isDigit
    omega
  have h0 : (Nat.digitChar (⌊x * 100 + 1 / 2⌋.natAbs % 100 % 10)).isDigit = true :=
    digitChar_isDigit (Nat.mod_lt _ (by decide))
  have hpre : ((if ⌊x * 100 + 1 / 2⌋ < 0 then ['-'] else [])
      ++ natToDigits (⌊x * 100 + 1 / 2⌋.natAbs / 100)) ≠ [] := by
    intro hh
    exact natToDigits_ne_nil _ (List.append_eq_nil.mp hh).2
  have hshape : format2 x
      = String.mk (((if ⌊x * 100 + 1 / 2⌋ < 0 then ['-'] else [])
          ++ natToDigits (⌊x * 100 + 1 / 2⌋.natAbs / 100))
        ++ ['.', Nat.digitChar (⌊x * 100 + 1 / 2⌋.natAbs % 100 / 10),
            Nat.digitChar (⌊x * 100 + 1 / 2⌋.natAbs % 100 % 10)]) := by
    unfold format2
    rw [List.append_assoc]
  rw [hshape]
  clear hshape
  exact twoDecimalFormatted_mk _ _ _ hpre h1 h0

lemma cacheCalls_cached {α : Type} (f : Unit → α) (c : α) (n : Nat) :
    cacheCalls f n (some c) = (List.replicate n c, some c) := by
  induction n with
  | zero => rfl
  | succ k ih => simp [cacheCalls, cacheResource, ih, List.replicate]

/-- C7: the cached `load_components` constructs the translation pipeline
and the three metric handles on its first invocation and every one of the
`n + 1` calls in a process returns that same constructed object; a cache
hit returns the stored object without running any constructor (so there
are no retries: the cached result does not depend on the constructor at
all). -/
theorem load_components_memoized :
    ∀ n : Nat,
      (cacheCalls load_components (n + 1) none).1
        = List.replicate (n + 1) (load_components ()) ∧
      ∀ (g : Unit → ComponentsT) (c : ComponentsT), cacheResource g (some c) = (c, some c) := by
  intro n
  constructor
  · show (cacheCalls load_components (n + 1) none).1 = _
    simp [cacheCalls, cacheResource, cacheCalls_cached, List.replicate]
  · intro g c
    rfl

/-- Witness instantiating the C7 theorem at two calls in one process. -/
theorem load_components_memoized_w :
    (cacheCalls load_components 2 none).1 = List.replicate 2 (load_components ()) ∧
    ∀ (g : Unit → ComponentsT) (c : ComponentsT), cacheResource g (some c) = (c, some c) :=
  load_components_memoized 1

/-- A pipeline constructor that succeeds, for the C8 counterexample. -/
def okPipelineLoad : Except Unit Pipeline := .ok (load_components ()).translator

/-- A metric loader on which only `evaluate.load("comet")` raises. -/
def metricLoadCometFails : String → Except Unit MetricHandle := fun nm =>
  if nm = "comet" then .error () else .ok { name := nm }

/-- C8 counterexample: in the variant present in this repository
(`load_components` in `app.py`, embedded as `load_components_fallible`),
a COMET load failure aborts the whole load — no components at all are
returned, rather than the translator and the first two metrics with a
sentinel COMET. -/
theorem comet_failure_aborts_cex :
    load_components_fallible okPipelineLoad metricLoadCometFails = .error () ∧
    ∀ c : ComponentsT, load_components_fallible okPipelineLoad metricLoadCometFails ≠ .ok c := by
  refine ⟨by rfl, ?_⟩
  intro c hc
  rw [show load_components_fallible okPipelineLoad metricLoadCometFails = .error () from by rfl]
    at hc
  exact Except.noConfusion hc

/-- C8 (amended): whenever loading COMET fails, the loader written in this
repository propagates the failure and returns no components, while the
spec's other (tolerant) variant still returns the translator and the first
two metrics with the sentinel `none` in place of COMET. -/
theorem comet_failure_not_tolerated (lp : Except Unit Pipeline)
    (lm : String → Except Unit MetricHandle) (h : lm "comet" = .error ()) :
    load_components_fallible lp lm = .error () ∧
    ∀ tr b bs, lp = .ok tr → lm "sacrebleu" = .ok b → lm "bertscore" = .ok bs →
      load_components_tolerant lp lm
        = .ok { translator := tr, bleu := b, bertscore := bs, comet := none } := by
  constructor
  · unfold load_components_fallible
    cases lp with
    | error e => cases e; rfl
    | ok tr =>
      cases hb : lm "sacrebleu" with
      | error e => cases e; rfl
      | ok b =>
        cases hbs : lm "bertscore" with
        | error e => cases e; rfl
        | ok bs => rw [h]
  · intro tr b bs hlp hbleu hbert
    unfold load_components_tolerant
    rw [hlp, hbleu, hbert, h]

/-- Witness for the amended C8 theorem at the concrete loaders
`okPipelineLoad` / `metricLoadCometFails`. -/
theorem comet_failure_not_tolerated_w :
    metricLoadCometFails "comet" = .error () ∧
    (load_components_fallible okPipelineLoad metricLoadCometFails = .error () ∧
      ∀ tr b bs, okPipelineLoad = .ok tr →
        metricLoadCometFails "sacrebleu" = .ok b →
        metricLoadCometFails "bertscore" = .ok bs →
        load_components_tolerant okPipelineLoad metricLoadCometFails
          = .ok { translator := tr, bleu := b, bertscore := bs, comet := none }) :=
  ⟨by rfl, comet_failure_not_tolerated okPipelineLoad metricLoadCometFails (by rfl)⟩

/-- C3 counterexample: on a whitespace-only source the handler renders
only the warning message — it renders no (empty) translation output and no
placeholder score for any metric — although it indeed makes no service
calls. -/
theorem empty_source_no_placeholder_cex :
    (runHandler svc0 "   " "ref").renders
        = [Render.warning "Please enter some text to translate."] ∧
    (runHandler svc0 "   " "ref").calls = [] ∧
    (∀ v, Render.translationArea v ∉ (runHandler svc0 "   " "ref").renders) ∧
    ∀ l v, Render.metric l v ∉ (runHandler svc0 "   " "ref").renders := by
  have h : runHandler svc0 "   " "ref"
      = { calls := [], renders := [Render.warning "Please enter some text to translate."],
          failed := false } := by rfl
  refine ⟨by rw [h], by rw [h], ?_, ?_⟩
  · intro v hv
    rw [h] at hv
    simp at hv
  · intro l v hv
    rw [h] at hv
    simp at hv

/-- C3 (amended): for every empty or whitespace-only source input the
handler renders only a warning prompting for text and makes no call to the
translation or metric services; it renders neither a translation output
nor any score placeholder. -/
theorem empty_source_warning_only (svc : Services) (s r : String)
    (h : ∀ c ∈ s.data, pyIsSpace c = true) :
    runHandler svc s r
      = { calls := [], renders := [Render.warning "Please enter some text to translate."],
          failed := false } := by
  unfold runHandler
  rw [if_pos (pythonStrip_of_all_space h)]

/-- Witness for the amended C3 theorem at the whitespace source `" \t "`. -/
theorem empty_source_warning_only_w :
    (∀ c ∈ (" \t " : String).data, pyIsSpace c = true) ∧
    runHandler svc0 " \t " "ref"
      = { calls := [], renders := [Render.warning "Please enter some text to translate."],
          failed := false } :=
  ⟨by decide, empty_source_warning_only svc0 " \t " "ref" (by decide)⟩

/-- C4 counterexample: with a non-empty source and a whitespace-only
reference the handler renders the translation and a single informational
message — not a "not computed" placeholder score per metric — though it
indeed calls only the translator. -/
theorem empty_reference_no_placeholder_cex :
    (runHandler svc0 "hi" "  ").renders
        = [Render.translationArea "tr:hi",
           Render.info "Add a reference translation to compute quality metrics."] ∧
    (runHandler svc0 "hi" "  ").calls = [Call.translate "hi"] ∧
    ∀ l v, Render.metric l v ∉ (runHandler svc0 "hi" "  ").renders := by
  have h : runHandler svc0 "hi" "  "
      = { calls := [Call.translate "hi"],
          renders := [Render.translationArea "tr:hi",
            Render.info "Add a reference translation to compute quality metrics."],
          failed := false } := by rfl
  refine ⟨by rw [h], by rw [h], ?_⟩
  intro l v hv
  rw [h] at hv
  simp at hv

/-- C4 (amended): for every non-empty source whose reference is empty or
whitespace-only, the handler renders the translation and one informational
message in place of scores, and invokes no metric service (its only call
is the translation call). -/
theorem empty_reference_no_metric_calls (svc : Services) (s r : String)
    (hs : pythonStrip s ≠ "") (item : TranslationItem) (rest : List TranslationItem)
    (ht : svc.translator (pythonStrip s) = item :: rest)
    (hr : ∀ c ∈ r.data, pyIsSpace c = true) :
    runHandler svc s r
      = { calls := [Call.translate (pythonStrip s)],
          renders := [Render.translationArea item.translation_text,
            Render.info "Add a reference translation to compute quality metrics."],
          failed := false } := by
  unfold runHandler
  rw [if_neg hs, ht]
  dsimp only
  rw [if_pos (pythonStrip_of_all_space hr)]

/-- Witness for the amended C4 theorem at source `"hi"` and whitespace
reference `" "`. -/
theorem empty_reference_no_metric_calls_w :
    pythonStrip "hi" ≠ "" ∧
    svc0.translator (pythonStrip "hi") = [{ translation_text := "tr:hi" }] ∧
    (∀ c ∈ (" " : String).data, pyIsSpace c = true) ∧
    runHandler svc0 "hi" " "
      = { calls := [Call.translate (pythonStrip "hi")],
          renders := [Render.translationArea "tr:hi",
            Render.info "Add a reference translation to compute quality metrics."],
          failed := false } :=
  ⟨by decide, by rfl, by decide,
    empty_reference_no_metric_calls svc0 "hi" " " (by decide)
      { translation_text := "tr:hi" } [] (by rfl) (by decide)⟩

/-- Value of the handler on a fully successful scoring run. -/
lemma runHandler_success (svc : Services) (s r : String)
    (hs : pythonStrip s ≠ "") (hr : pythonStrip r ≠ "")
    (item : TranslationItem) (rest : List TranslationItem)
    (ht : svc.translator (pythonStrip s) = item :: rest)
    (b : BleuResult)
    (hb : svc.bleuCompute [item.translation_text] [[pythonStrip r]] = .ok b)
    (bt : BertResult)
    (hbert : svc.bertCompute [item.translation_text] [pythonStrip r] "tr" = .ok bt)
    (f1h : ℚ) (f1t : List ℚ) (hf1 : bt.f1 = f1h :: f1t)
    (ct : CometResult)
    (hcomet : svc.cometCompute [item.translation_text] [pythonStrip r] [pythonStrip s]
        = .ok ct)
    (sch : ℚ) (sct : List ℚ) (hsc : ct.scores = sch :: sct) :
    runHandler svc s r
      = { calls := [Call.translate (pythonStrip s),
            Call.bleu [item.translation_text] [[pythonStrip r]],
            Call.bert [item.translation_text] [pythonStrip r] "tr",
            Call.comet [item.translation_text] [pythonStrip r] [pythonStrip s]],
          renders := [Render.translationArea item.translation_text,
            Render.metric "BLEU" (format2 b.score),
            Render.metric "BERTScore F1" (format2 (f1h * 100)),
            Render.metric "COMET" (format2 sch)],
          failed := false } := by
  unfold runHandler
  rw [if_neg hs, ht]
  dsimp only
  rw [if_neg hr, hb, hbert, hcomet]
  dsimp only
  rw [hf1, hsc]

/-- C1: for every source text that is non-empty after trimming, the
handler's first service call is the translation call on the trimmed source
text, and the rendered translation is the `translation_text` field of the
first element of the list the translator returns. -/
theorem translator_first_candidate (svc : Services) (s r : String)
    (hs : pythonStrip s ≠ "") (item : TranslationItem) (rest : List TranslationItem)
    (ht : svc.translator (pythonStrip s) = item :: rest) :
    (runHandler svc s r).calls.head? = some (Call.translate (pythonStrip s)) ∧
    Render.translationArea item.translation_text ∈ (runHandler svc s r).renders := by
  unfold runHandler
  rw [if_neg hs, ht]
  dsimp only
  by_cases hr : pythonStrip r = ""
  · rw [if_pos hr]
    exact ⟨rfl, by simp⟩
  · rw [if_neg hr]
    cases svc.bleuCompute [item.translation_text] [[pythonStrip r]] with
    | error e => exact ⟨rfl, by simp⟩
    | ok b =>
      dsimp only
      cases svc.bertCompute [item.translation_text] [pythonStrip r] "tr" with
      | error e => exact ⟨rfl, by simp⟩
      | ok bt =>
        dsimp only
        cases svc.cometCompute [item.translation_text] [pythonStrip r] [pythonStrip s] with
        | error e => exact ⟨rfl, by simp⟩
        | ok ct =>
          dsimp only
          cases bt.f1 with
          | nil => cases ct.scores <;> exact ⟨rfl, by simp⟩
          | cons f1h f1t => cases ct.scores <;> exact ⟨rfl, by simp⟩

/-- Witness for the C1 theorem at concrete inputs. -/
theorem translator_first_candidate_w :
    pythonStrip " hi " ≠ "" ∧
    svc0.translator (pythonStrip " hi ") = [{ translation_text := "tr:hi" }] ∧
    ((runHandler svc0 " hi " "ref").calls.head?
        = some (Call.translate (pythonStrip " hi ")) ∧
      Render.translationArea "tr:hi" ∈ (runHandler svc0 " hi " "ref").renders) :=
  ⟨by decide, by rfl,
    translator_first_candidate svc0 " hi " "ref" (by decide)
      { translation_text := "tr:hi" } [] (by rfl)⟩

/-- C2: with non-empty trimmed source and reference, a translator that
produces a candidate and three metric services that all succeed (with
non-empty per-example arrays), the handler renders the translation and
exactly three score strings — BLEU's `score`, BERTScore's first `f1` value
scaled by 100, COMET's first `scores` value — each produced by the
two-decimal formatter, and each indeed of two-decimal shape. -/
theorem three_scores_two_decimals (svc : Services) (s r : String)
    (hs : pythonStrip s ≠ "") (hr : pythonStrip r ≠ "")
    (item : TranslationItem) (rest : List TranslationItem)
    (ht : svc.translator (pythonStrip s) = item :: rest)
    (b : BleuResult)
    (hb : svc.bleuCompute [item.translation_text] [[pythonStrip r]] = .ok b)
    (bt : BertResult)
    (hbert : svc.bertCompute [item.translation_text] [pythonStrip r] "tr" = .ok bt)
    (f1h : ℚ) (f1t : List ℚ) (hf1 : bt.f1 = f1h :: f1t)
    (ct : CometResult)
    (hcomet : svc.cometCompute [item.translation_text] [pythonStrip r] [pythonStrip s]
        = .ok ct)
    (sch : ℚ) (sct : List ℚ) (hsc : ct.scores = sch :: sct) :
    (runHandler svc s r).renders
      = [Render.translationArea item.translation_text,
         Render.metric "BLEU" (format2 b.score),
         Render.metric "BERTScore F1" (format2 (f1h * 100)),
         Render.metric "COMET" (format2 sch)] ∧
    twoDecimalFormatted (format2 b.score) = true ∧
    twoDecimalFormatted (format2 (f1h * 100)) = true ∧
    twoDecimalFormatted (format2 sch) = true ∧
    (runHandler svc s r).failed = false := by
  rw [runHandler_success svc s r hs hr item rest ht b hb bt hbert f1h f1t hf1 ct hcomet
    sch sct hsc]
  exact ⟨rfl, format2_twoDecimal _, format2_twoDecimal _, format2_twoDecimal _, rfl⟩

/-- Witness for the C2 theorem at concrete inputs and `svc0`. -/
theorem three_scores_two_decimals_w :
    pythonStrip "hello" ≠ "" ∧
    pythonStrip "merhaba" ≠ "" ∧
    svc0.translator (pythonStrip "hello") = [{ translation_text := "tr:hello" }] ∧
    svc0.bleuCompute ["tr:hello"] [[pythonStrip "merhaba"]] = .ok { score := 42 } ∧
    svc0.bertCompute ["tr:hello"] [pythonStrip "merhaba"] "tr" = .ok { f1 := [9 / 10] } ∧
    svc0.cometCompute ["tr:hello"] [pythonStrip "merhaba"] [pythonStrip "hello"]
        = .ok { scores := [4 / 5] } ∧
    ((runHandler svc0 "hello" "merhaba").renders
        = [Render.translationArea "tr:hello",
           Render.metric "BLEU" (format2 (42 : ℚ)),
           Render.metric "BERTScore F1" (format2 ((9 / 10 : ℚ) * 100)),
           Render.metric "COMET" (format2 (4 / 5 : ℚ))] ∧
      twoDecimalFormatted (format2 (42 : ℚ)) = true ∧
      twoDecimalFormatted (format2 ((9 / 10 : ℚ) * 100)) = true ∧
      twoDecimalFormatted (format2 (4 / 5 : ℚ)) = true ∧
      (runHandler svc0 "hello" "merhaba").failed = false) :=
  ⟨by decide, by decide, by rfl, by rfl, by rfl, by rfl,
    three_scores_two_decimals svc0 "hello" "merhaba" (by decide) (by decide)
      { translation_text := "tr:hello" } [] (by rfl)
      { score := 42 } (by rfl)
      { f1 := [9 / 10] } (by rfl) (9 / 10) [] (by rfl)
      { scores := [4 / 5] } (by rfl) (4 / 5) [] (by rfl)⟩

/-- C5: in the variant present in this repository the scoring block has
no exception handling, so if any one of the three metric `compute` calls
raises, the failure propagates (the handler aborts) and no metric score at
all is rendered. -/
theorem metric_failure_aborts_scoring (svc : Services) (s r : String)
    (hs : pythonStrip s ≠ "") (hr : pythonStrip r ≠ "")
    (item : TranslationItem) (rest : List TranslationItem)
    (ht : svc.translator (pythonStrip s) = item :: rest)
    (hfail :
      svc.bleuCompute [item.translation_text] [[pythonStrip r]] = .error () ∨
      svc.bertCompute [item.translation_text] [pythonStrip r] "tr" = .error () ∨
      svc.cometCompute [item.translation_text] [pythonStrip r] [pythonStrip s]
        = .error ()) :
    (runHandler svc s r).failed = true ∧
    ∀ l v, Render.metric l v ∉ (runHandler svc s r).renders := by
  unfold runHandler
  rw [if_neg hs, ht]
  dsimp only
  rw [if_neg hr]
  cases hb : svc.bleuCompute [item.translation_text] [[pythonStrip r]] with
  | error e =>
    exact ⟨rfl, fun l v hv => by simp at hv⟩
  | ok b =>
    dsimp only
    cases hbt : svc.bertCompute [item.translation_text] [pythonStrip r] "tr" with
    | error e =>
      exact ⟨rfl, fun l v hv => by simp at hv⟩
    | ok bt =>
      dsimp only
      cases hct : svc.cometCompute [item.translation_text] [pythonStrip r] [pythonStrip s] with
      | error e =>
        exact ⟨rfl, fun l v hv => by simp at hv⟩
      | ok ct =>
        rcases hfail with h | h | h
        · rw [hb] at h
          exact absurd h (by simp)
        · rw [hbt] at h
          exact absurd h (by simp)
        · rw [hct] at h
          exact absurd h (by simp)

/-- Witness for the C5 theorem: with `svcBertFail` (whose BERTScore call
raises) the handler aborts and renders no metric. -/
theorem metric_failure_aborts_scoring_w :
    pythonStrip "hi" ≠ "" ∧
    pythonStrip "ref" ≠ "" ∧
    svcBertFail.translator (pythonStrip "hi") = [{ translation_text := "tr:hi" }] ∧
    svcBertFail.bertCompute ["tr:hi"] [pythonStrip "ref"] "tr" = .error () ∧
    ((runHandler svcBertFail "hi" "ref").failed = true ∧
      ∀ l v, Render.metric l v ∉ (runHandler svcBertFail "hi" "ref").renders) :=
  ⟨by decide, by decide, by rfl, by rfl,
    metric_failure_aborts_scoring svcBertFail "hi" "ref" (by decide) (by decide)
      { translation_text := "tr:hi" } [] (by rfl) (Or.inr (Or.inl (by rfl)))⟩

/-- C6: when scoring runs, the handler's call sequence is exactly the
translation call followed by the three metric calls on the single
(prediction, reference) pair with list-of-one arguments: sacrebleu gets
the reference wrapped as a nested list `[[ref]]`, bertscore gets the flat
list `[ref]` (with `lang := "tr"`), and comet gets `[ref]` plus the
trimmed source wrapped as `[src]`. -/
theorem metric_call_shapes (svc : Services) (s r : String)
    (hs : pythonStrip s ≠ "") (hr : pythonStrip r ≠ "")
    (item : TranslationItem) (rest : List TranslationItem)
    (ht : svc.translator (pythonStrip s) = item :: rest)
    (b : BleuResult)
    (hb : svc.bleuCompute [item.translation_text] [[pythonStrip r]] = .ok b)
    (bt : BertResult)
    (hbert : svc.bertCompute [item.translation_text] [pythonStrip r] "tr" = .ok bt)
    (ct : CometResult)
    (hcomet : svc.cometCompute [item.translation_text] [pythonStrip r] [pythonStrip s]
        = .ok ct) :
    (runHandler svc s r).calls
      = [Call.translate (pythonStrip s),
         Call.bleu [item.translation_text] [[pythonStrip r]],
         Call.bert [item.translation_text] [pythonStrip r] "tr",
         Call.comet [item.translation_text] [pythonStrip r] [pythonStrip s]] := by
  unfold runHandler
  rw [if_neg hs, ht]
  dsimp only
  rw [if_neg hr, hb, hbert, hcomet]
  dsimp only
  cases bt.f1 with
  | nil => cases ct.scores <;> rfl
  | cons f1h f1t => cases ct.scores <;> rfl

/-- Witness for the C6 theorem at concrete inputs and `svc0`. -/
theorem metric_call_shapes_w :
    pythonStrip "hi" ≠ "" ∧
    pythonStrip "ref" ≠ "" ∧
    svc0.translator (pythonStrip "hi") = [{ translation_text := "tr:hi" }] ∧
    (runHandler svc0 "hi" "ref").calls
      = [Call.translate (pythonStrip "hi"),
         Call.bleu ["tr:hi"] [[pythonStrip "ref"]],
         Call.bert ["tr:hi"] [pythonStrip "ref"] "tr",
         Call.comet ["tr:hi"] [pythonStrip "ref"] [pythonStrip "hi"]] :=
  ⟨by decide, by decide, by rfl,
    metric_call_shapes svc0 "hi" "ref" (by decide) (by decide)
      { translation_text := "tr:hi" } [] (by rfl)
      { score := 42 } (by rfl)
      { f1 := [9 / 10] } (by rfl)
      { scores := [4 / 5] } (by rfl)⟩

/-- Selects the rendered BERTScore field. -/
def isBertRender : Render → Bool := fun x =>
  match x with
  | Render.metric l _ => l == "BERTScore F1"
  | _ => false

/-- C9: in a successful scoring run the one rendered BERTScore field shows
the first per-example F1 value multiplied by 100 before two-decimal
formatting — the displayed string is `format2 (f1 * 100)`, on a 0-100
scale, not `format2 f1`. -/
theorem bertscore_scaled_by_100 (svc : Services) (s r : String)
    (hs : pythonStrip s ≠ "") (hr : pythonStrip r ≠ "")
    (item : TranslationItem) (rest : List TranslationItem)
    (ht : svc.translator (pythonStrip s) = item :: rest)
    (b : BleuResult)
    (hb : svc.bleuCompute [item.translation_text] [[pythonStrip r]] = .ok b)
    (bt : BertResult)
    (hbert : svc.bertCompute [item.translation_text] [pythonStrip r] "tr" = .ok bt)
    (f1h : ℚ) (f1t : List ℚ) (hf1 : bt.f1 = f1h :: f1t)
    (ct : CometResult)
    (hcomet : svc.cometCompute [item.translation_text] [pythonStrip r] [pythonStrip s]
        = .ok ct)
    (sch : ℚ) (sct : List ℚ) (hsc : ct.scores = sch :: sct) :
    ((runHandler svc s r).renders.filter isBertRender)
      = [Render.metric "BERTScore F1" (format2 (f1h * 100))] := by
  rw [runHandler_success svc s r hs hr item rest ht b hb bt hbert f1h f1t hf1 ct hcomet
    sch sct hsc]
  rfl

/-- Witness for the C9 theorem at concrete inputs and `svc0`. -/
theorem bertscore_scaled_by_100_w :
    pythonStrip "hello" ≠ "" ∧
    pythonStrip "merhaba" ≠ "" ∧
    svc0.bertCompute ["tr:hello"] [pythonStrip "merhaba"] "tr" = .ok { f1 := [9 / 10] } ∧
    ((runHandler svc0 "hello" "merhaba").renders.filter isBertRender)
      = [Render.metric "BERTScore F1" (format2 ((9 / 10 : ℚ) * 100))] :=
  ⟨by decide, by decide, by rfl,
    bertscore_scaled_by_100 svc0 "hello" "merhaba" (by decide) (by decide)
      { translation_text := "tr:hello" } [] (by rfl)
      { score := 42 } (by rfl)
      { f1 := [9 / 10] } (by rfl) (9 / 10) [] (by rfl)
      { scores := [4 / 5] } (by rfl) (4 / 5) [] (by rfl)⟩

/-- C10: every service call uses the stripped source and reference, so
padding either input with leading and trailing whitespace leaves the whole
outcome — calls made, translation rendered, scores rendered — unchanged. -/
theorem whitespace_padding_invariant (svc : Services) (s r w1 w2 w3 w4 : String)
    (h1 : ∀ c ∈ w1.data, pyIsSpace c = true) (h2 : ∀ c ∈ w2.data, pyIsSpace c = true)
    (h3 : ∀ c ∈ w3.data, pyIsSpace c = true) (h4 : ∀ c ∈ w4.data, pyIsSpace c = true) :
    runHandler svc (w1 ++ s ++ w2) (w3 ++ r ++ w4) = runHandler svc s r :=
  runHandler_congr svc (pythonStrip_pad w1 s w2 h1 h2) (pythonStrip_pad w3 r w4 h3 h4)

/-- Witness for the C10 theorem: padding `"a"` and `"b"` with spaces and a
tab changes nothing. -/
theorem whitespace_padding_invariant_w :
    (∀ c ∈ (" " : String).data, pyIsSpace c = true) ∧
    (∀ c ∈ ("\t " : String).data, pyIsSpace c = true) ∧
    runHandler svc0 (" " ++ "a" ++ "\t ") ("\t " ++ "b" ++ " ") = runHandler svc0 "a" "b" :=
  ⟨by decide, by decide,
    whitespace_padding_invariant svc0 "a" "b" " " "\t " "\t " " "
      (by decide) (by decide) (by decide) (by decide)⟩

end Evaluator
